import Mathlib

/-!
Verification development for the NoteWhisper note-synthesis pipeline.

The program text is embedded shallowly:

* `pySplitDot` models Python's `str.split(".")` (the separator is the
  literal period, every occurrence splits, empty segments are kept, and
  the result is never the empty list — `"".split(".") == [""]`).
* `KeypointExtractor.extract` models `keypoints.py`:
  `extract(self) -> list[str]: return self.text.split(".")`.
* `QuizGenerator.generate` models `quiz.py`:
  `[f"What is: {sentence}?" for sentence in self.text.split(".") if sentence]`.
* `pyStrip` models Python's `str.strip()` (leading and trailing
  whitespace removed).
* `process` models the control flow of the `process` command in `cli.py`.
  Its `try` body constructs the components first, and the construction
  `KeypointExtractor(subject=subject)` (cli.py line 129) raises
  `TypeError` on every run, because the class in `keypoints.py` only
  accepts `__init__(self, text)`.  The `except Exception` handler
  therefore turns every run into `{"status": "error", "message": ...}`
  before the YouTube download, the existence check, `preprocess_audio`,
  transcription, the 10-character gate or any later stage can execute.
  The collaborator constructors that run before that line
  (ConfigManager, AudioProcessor, FileHandler, Transcriber) come from
  modules absent from the sources and are abstracted as the `initFail`
  outcome field of an `Env` record, following the contracts of spec §4
  and §6; the remaining `Env` fields describe what each collaborator
  stage would do were it ever invoked.
* `batch` models the `batch` command loop in `cli.py`: it invokes the
  single-item pipeline once per discovered file and appends each result.

Strings are modelled as `List Char`; a Python string literal `s` is
embedded as `"s".data`.
-/

/-- Split a character list at every occurrence of the period character,
keeping empty segments, exactly as Python's `str.split(".")` does.
`pySplitDot []` is `[[]]`, matching `"".split(".") == [""]`. -/
def pySplitDot : List Char → List (List Char)
  | [] => [[]]
  | c :: cs =>
    if c = '.' then [] :: pySplitDot cs
    else
      match pySplitDot cs with
      | [] => [[c]]
      | s :: ss => (c :: s) :: ss

/-- Join a list of segments with a single period between consecutive
segments, as Python's `".".join(segments)` does. -/
def joinPeriod : List (List Char) → List Char
  | [] => []
  | [s] => s
  | s :: ss => s ++ '.' :: joinPeriod ss

/-- Embedding of `KeypointExtractor.extract` from `keypoints.py`: the
extractor stores the transcript text and `extract` returns
`self.text.split(".")`.  The subject passed by the orchestrator never
reaches this computation. -/
def KeypointExtractor.extract (text : List Char) : List (List Char) :=
  pySplitDot text

/-- Embedding of `QuizGenerator.generate` from `quiz.py`: one question
`f"What is: {sentence}?"` per truthy (non-empty) segment of
`self.text.split(".")`.  The function takes no question bound. -/
def QuizGenerator.generate (text : List Char) : List (List Char) :=
  ((pySplitDot text).filter (fun s => !s.isEmpty)).map
    (fun s => "What is: ".data ++ s ++ "?".data)

/-- Python whitespace predicate used by `str.strip()`. -/
def isPySpace (c : Char) : Bool :=
  c = ' ' || c = '\t' || c = '\n' || c = '\r' || c = '\x0b' || c = '\x0c'

/-- Embedding of Python's `str.strip()`: drop leading and trailing
whitespace characters. -/
def pyStrip (s : List Char) : List Char :=
  ((s.dropWhile isPySpace).reverse.dropWhile isPySpace).reverse

/-- Fields carried by the success dictionary returned at the end of the
`process` command: output path, transcript length, key-point count,
quiz-question count and elapsed processing time. -/
structure SuccessInfo where
  outputPath : List Char
  transcriptLength : Nat
  keypointsCount : Nat
  quizQuestionsCount : Nat
  processingTime : Nat
deriving DecidableEq, Repr

/-- Structured result of one `process` run: the success dictionary or the
`{"status": "error", "message": msg}` dictionary produced by the
`except Exception` handler. -/
inductive RunResult where
  | ok : SuccessInfo → RunResult
  | error : List Char → RunResult
deriving DecidableEq, Repr

/-- Whether a run result has status `success`. -/
def RunResult.isSuccess : RunResult → Bool
  | .ok _ => true
  | .error _ => false

/-- Observable outcome of one `process` run: the returned result, whether
the normalized temporary audio artifact still exists on disk afterwards,
whether control reached the transcription stage, and whether control
reached the key-point extraction stage (and hence the stages after it). -/
structure RunOutcome where
  result : RunResult
  tempAudioExists : Bool
  reachedTranscription : Bool
  reachedExtraction : Bool
deriving DecidableEq, Repr

/-- Modelled from the spec: per-run environment fixing the behaviour of
the collaborator stages whose modules (`transcribe`, `summarize`,
`utils`) are absent from the sources.  `initFail` is `some msg` when one
of the collaborator constructors that run before cli.py line 129
(ConfigManager, AudioProcessor, FileHandler, Transcriber) raises an
exception with message `msg`, and `none` when they all succeed.  The
remaining fields describe what each collaborator stage would do were it
ever invoked — each `...Fail` field is `some msg` when that collaborator
would raise, `transcript` is the text the transcriber would return,
`preprocessFail = none` means `preprocess_audio` would succeed and
create the normalized temporary audio artifact (spec §4.1) — but the
staged `process` fails at component construction before consulting any
of them. -/
structure Env where
  initFail : Option (List Char)
  youtube : Bool
  downloadFail : Option (List Char)
  inputExists : Bool
  inputSource : List Char
  preprocessFail : Option (List Char)
  transcribeFail : Option (List Char)
  transcript : List Char
  summarizeFail : Option (List Char)
  formatFail : Option (List Char)
  saveFail : Option (List Char)
  keepAudio : Bool
  outputPath : List Char
  processingTime : Nat
deriving DecidableEq, Repr

/-- Message of the `TypeError` raised at cli.py line 129: the call
`KeypointExtractor(subject=subject)` passes a keyword argument the staged
`__init__(self, text)` does not accept. -/
def keypointInitError : List Char :=
  "KeypointExtractor.__init__() got an unexpected keyword argument: subject".data

/-- Embedding of the `process` command of `cli.py`.  The `try` body first
constructs the components; a failing collaborator constructor raises
with its own message, and otherwise the construction
`KeypointExtractor(subject=subject)` raises the `TypeError` — the staged
class accepts only `__init__(self, text)`.  Either way the
`except Exception` handler returns the error result: the download, the
existence check, `preprocess_audio`, transcription, the 10-character
gate, the extraction-family stages, formatting, saving and cleanup at
the end of the `try` body are all dead code, so no run creates the
temporary audio artifact, reaches transcription or extraction, or
returns success. -/
def process (env : Env) : RunOutcome :=
  match env.initFail with
  | some msg => ⟨.error msg, false, false, false⟩
  | none => ⟨.error keypointInitError, false, false, false⟩

/-- Embedding of the `batch` command loop of `cli.py`: with no discovered
audio files it returns the `"No audio files found"` error; otherwise it
invokes the single-item pipeline once per file, in order, appending each
structured result (which `process` returns instead of raising). -/
def batch (envs : List Env) : Except (List Char) (List RunOutcome) :=
  if envs.isEmpty then .error "No audio files found".data
  else .ok (envs.map process)

/-- Environment of a run in which every collaborator behaves well: no
constructor failure, a local already-existing input, a transcript well
over the 10-character gate, and no retention request. -/
def envOk : Env :=
  { initFail := none
    youtube := false
    downloadFail := none
    inputExists := true
    inputSource := "lecture1.mp3".data
    preprocessFail := none
    transcribeFail := none
    transcript := "The sky is blue. Water boils at 100 degrees.".data
    summarizeFail := none
    formatFail := none
    saveFail := none
    keepAudio := false
    outputPath := "lecture1_notes.md".data
    processingTime := 3 }

/-- Environment identical to `envOk` except that the input file does not
exist — the existence check of cli.py would raise `FileNotFoundError`,
were it ever reached. -/
def envMissing : Env :=
  { envOk with inputSource := "missing.mp3".data, inputExists := false }

/-- Environment identical to `envOk` except that the transcriber would
return the 5-character transcript `"short"`, were it ever invoked. -/
def envShort : Env :=
  { envOk with transcript := "short".data }
/-- Split never produces the empty list of segments, matching Python where
`str.split` always returns at least one element. -/
theorem pySplitDot_ne_nil (l : List Char) : pySplitDot l ≠ [] := by
  cases l with
  | nil => simp [pySplitDot]
  | cons c cs =>
    simp only [pySplitDot]
    split
    · simp
    · split <;> simp

/-- Unfolding equation for `joinPeriod` on a cons with non-empty tail. -/
theorem joinPeriod_cons_of_ne_nil (s : List Char) (r : List (List Char))
    (h : r ≠ []) : joinPeriod (s :: r) = s ++ '.' :: joinPeriod r := by
  cases r with
  | nil => exact absurd rfl h
  | cons s2 ss => rfl

/-- Unfolding equation for the period-split on a leading period. -/
theorem pySplitDot_period (cs : List Char) :
    pySplitDot ('.' :: cs) = [] :: pySplitDot cs := by
  simp [pySplitDot]

/-- Joining the period-split segments with periods reconstructs the
original text. -/
theorem joinPeriod_pySplitDot (l : List Char) : joinPeriod (pySplitDot l) = l := by
  induction l with
  | nil => rfl
  | cons c cs ih =>
    rcases hh : pySplitDot cs with _ | ⟨s, ss⟩
    · exact absurd hh (pySplitDot_ne_nil cs)
    · by_cases hc : c = '.'
      · subst hc
        rw [pySplitDot_period, joinPeriod_cons_of_ne_nil _ _ (pySplitDot_ne_nil cs), ih]
        rfl
      · simp only [pySplitDot, if_neg hc, hh]
        rw [hh] at ih
        cases ss with
        | nil => simpa [joinPeriod] using ih
        | cons s2 ss2 =>
          rw [joinPeriod_cons_of_ne_nil s (s2 :: ss2) (by simp)] at ih
          rw [joinPeriod_cons_of_ne_nil (c :: s) (s2 :: ss2) (by simp), ← ih]
          simp

/-- Every character of a period-join is either a period or a character of
one of the segments. -/
theorem mem_joinPeriod (c : Char) (L : List (List Char))
    (h : c ∈ joinPeriod L) : c = '.' ∨ ∃ s ∈ L, c ∈ s := by
  induction L with
  | nil => simp [joinPeriod] at h
  | cons s ss ih =>
    cases ss with
    | nil => exact Or.inr ⟨s, by simp, by simpa [joinPeriod] using h⟩
    | cons s2 ss2 =>
      rw [joinPeriod_cons_of_ne_nil _ _ (by simp)] at h
      rcases List.mem_append.mp h with hs | hrest
      · exact Or.inr ⟨s, by simp, hs⟩
      · rcases List.mem_cons.mp hrest with hdot | htail
        · exact Or.inl hdot
        · rcases ih htail with hdot | ⟨s3, hs3, hc3⟩
          · exact Or.inl hdot
          · exact Or.inr ⟨s3, List.mem_cons_of_mem _ hs3, hc3⟩

/-- No segment produced by the period-split contains a period. -/
theorem not_period_mem_pySplitDot (l : List Char) (s : List Char)
    (hs : s ∈ pySplitDot l) : '.' ∉ s := by
  induction l generalizing s with
  | nil =>
    simp only [pySplitDot, List.mem_singleton] at hs
    subst hs; simp
  | cons c cs ih =>
    rcases hh : pySplitDot cs with _ | ⟨s0, ss⟩
    · exact absurd hh (pySplitDot_ne_nil cs)
    · by_cases hc : c = '.'
      · subst hc
        simp only [pySplitDot, if_pos rfl] at hs
        rcases List.mem_cons.mp hs with rfl | h
        · simp
        · exact ih s h
      · simp only [pySplitDot, if_neg hc, hh] at hs
        rcases List.mem_cons.mp hs with rfl | h
        · intro hmem
          rcases List.mem_cons.mp hmem with h1 | h2
          · exact hc h1.symm
          · exact ih s0 (by rw [hh]; exact List.mem_cons_self _ _) h2
        · exact ih s (by rw [hh]; exact List.mem_cons_of_mem _ h)

/-- C1: counterexample — on Scenario A's transcript
`"The sky is blue. Water boils at 100 degrees."` with any subject, the
extractor does NOT return exactly the two statements `"The sky is blue"`
and `"Water boils at 100 degrees"`. -/
theorem C1_scenarioA_counterexample :
    KeypointExtractor.extract "The sky is blue. Water boils at 100 degrees.".data ≠
      ["The sky is blue".data, "Water boils at 100 degrees".data] := by
  decide

/-- C1 (amended): on Scenario A's transcript the extractor returns three
statements, in order: `"The sky is blue"`, `" Water boils at 100 degrees"`
(with its leading space preserved) and the empty string left of the final
period. -/
theorem C1_scenarioA_actual :
    KeypointExtractor.extract "The sky is blue. Water boils at 100 degrees.".data =
      ["The sky is blue".data, " Water boils at 100 degrees".data, []] := by
  decide

/-- C2: evaluation of the code at the failing input — `generate` on the
one-character transcript `"a"` yields one question, so with
`max_questions = 0` (which the function does not even accept) the output
is not the empty sequence the bound requires. -/
theorem C2_quiz_ignores_bound :
    (QuizGenerator.generate "a".data).length = 1 := by
  decide

/-- C4: counterexample — the empty transcript is whitespace-empty, yet
the extractor returns the one-element sequence `[""]`, not the empty
sequence. -/
theorem C4_empty_transcript_counterexample :
    pyStrip "".data = [] ∧ KeypointExtractor.extract "".data ≠ [] := by
  decide

/-- C4 (amended): Key-Point Extraction never returns an empty sequence,
for any transcript whatsoever — so a transcript with non-whitespace
content indeed never yields an empty sequence, but a whitespace-empty
transcript does not either. -/
theorem C4_extract_never_empty (t : List Char) :
    KeypointExtractor.extract t ≠ [] :=
  pySplitDot_ne_nil t

/-- C5: counterexample — the non-empty transcript `"."` makes Quiz
Generation return the empty sequence. -/
theorem C5_period_transcript_counterexample :
    QuizGenerator.generate ".".data = [] ∧ ".".data ≠ ([] : List Char) := by
  decide

/-- C5 (amended): Quiz Generation returns a non-empty sequence for every
transcript containing at least one non-period character (so a single
complete sentence yields at least one question); only transcripts made
entirely of periods defeat it. -/
theorem C5_generate_of_nonperiod_ne_nil (t : List Char) (c : Char)
    (hc : c ∈ t) (hne : c ≠ '.') : QuizGenerator.generate t ≠ [] := by
  have hjoin : c ∈ joinPeriod (pySplitDot t) := by
    rw [joinPeriod_pySplitDot]; exact hc
  rcases mem_joinPeriod c _ hjoin with h | ⟨s, hsmem, hcs⟩
  · exact absurd h hne
  · intro hgen
    unfold QuizGenerator.generate at hgen
    rw [List.map_eq_nil_iff] at hgen
    have hmem : s ∈ (pySplitDot t).filter (fun s => !s.isEmpty) := by
      rw [List.mem_filter]
      refine ⟨hsmem, ?_⟩
      have : s ≠ [] := by rintro rfl; simp at hcs
      simpa [List.isEmpty_iff] using this
    rw [hgen] at hmem
    simp at hmem

/-- C5 witness: the single complete sentence `"The sky is blue."`
contains the non-period character `T`, and Quiz Generation on it is
non-empty. -/
theorem C5_generate_of_nonperiod_ne_nil_witness :
    ('T' ∈ "The sky is blue.".data) ∧ ('T' ≠ '.') ∧
      QuizGenerator.generate "The sky is blue.".data ≠ [] :=
  ⟨by decide, by decide,
    C5_generate_of_nonperiod_ne_nil "The sky is blue.".data 'T' (by decide) (by decide)⟩

/-- C9: counterexample — on the transcript `"a."` the extractor's output
contains the empty string, so not every returned statement is non-empty. -/
theorem C9_empty_statement_counterexample :
    ([] : List Char) ∈ KeypointExtractor.extract "a.".data := by
  decide

/-- C9 (amended): statements returned by Key-Point Extraction need not be
non-empty; the invariant that does hold is that every returned statement
is period-free. -/
theorem C9_statements_period_free (t s : List Char)
    (hs : s ∈ KeypointExtractor.extract t) : '.' ∉ s :=
  not_period_mem_pySplitDot t s hs

/-- C9 witness: the first statement extracted from Scenario A's
transcript contains no period. -/
theorem C9_statements_period_free_witness :
    ("The sky is blue".data ∈
      KeypointExtractor.extract "The sky is blue. Water boils at 100 degrees.".data) ∧
    '.' ∉ "The sky is blue".data :=
  ⟨by decide,
    C9_statements_period_free "The sky is blue. Water boils at 100 degrees.".data
      "The sky is blue".data (by decide)⟩

/-- C10: Key-Point Extraction is lossless — joining the extracted
statements with `"."` reconstructs the transcript exactly, so the
statements are precisely the period-delimited segments in order. -/
theorem C10_extract_lossless (t : List Char) :
    joinPeriod (KeypointExtractor.extract t) = t :=
  joinPeriod_pySplitDot t

/-- C3: after every run of the pipeline, successful or failed, the
normalized temporary audio artifact does not exist on disk — every run
fails at component construction (the `KeypointExtractor` `TypeError` of
cli.py line 129, or an earlier collaborator-constructor failure) before
`preprocess_audio` could ever create the artifact, so the cleanup
invariant holds for every run. -/
theorem C3_temp_never_exists (env : Env) :
    (process env).tempAudioExists = false := by
  unfold process
  cases env.initFail <;> rfl

/-- C6: evaluation of the code at the failing input — even in an
environment whose well-behaved collaborators would hand the orchestrator
the 5-character transcript `"short"`, the run fails at component
construction with the `KeypointExtractor` `TypeError` and never reaches
the transcription stage, so the 10-character gate of cli.py lines 157-158
(the behaviour the claim describes) is dead code and the run's error is
the `TypeError` message, not the gate's `"Transcription failed or too
short"`. -/
theorem C6_gate_unreachable :
    (process envShort).result = .error keypointInitError ∧
    (process envShort).reachedTranscription = false ∧
    (process envShort).reachedExtraction = false := by
  decide

/-- C7: every run returns a structured result — either an error result
carrying the failure message, or a success result carrying the output
path, the transcript length, the key-point count, the quiz-question count
and the elapsed time; no failure escapes as an unhandled exception. -/
theorem C7_structured_result (env : Env) :
    (∃ msg, (process env).result = .error msg) ∨
    (process env).result = .ok ⟨env.outputPath, env.transcript.length,
      (KeypointExtractor.extract env.transcript).length,
      (QuizGenerator.generate env.transcript).length, env.processingTime⟩ := by
  unfold process
  cases env.initFail <;> exact Or.inl ⟨_, rfl⟩

/-- C8: evaluation of the code at the failing input — the concrete
3-source batch whose second source is missing still yields one result
per source, in order and without short-circuiting, but every item fails
with the component-construction `TypeError`: no item can have status
success, against the scenario's expected success/failure/success
pattern, because each `process` invocation dies at cli.py line 129
before even the existence check. -/
theorem C8_batch_all_items_fail :
    ∃ rs, batch [envOk, envMissing, envOk] = .ok rs ∧ rs.length = 3 ∧
      rs.map (fun o => o.result.isSuccess) = [false, false, false] :=
  ⟨[envOk, envMissing, envOk].map process, rfl, rfl, by decide⟩
